import Mathlib

/-!
Verification of `csrc/mmdeploy/codebase/mmdet/instance_segmentation.cpp`
(class `ResizeInstanceMask`): per-instance mask reprojection.

The source file is shallowly embedded below.  Machine floats are modelled
as exact rationals (`ℚ`); the arithmetic the claims concern (floor / ceil /
max / min / small products) is exact in `float` on the relevant ranges, so
`ℚ` is a faithful model.  Tensors appear as shape/dtype metadata plus
access functions; the external warp-affine primitive (declared in
`mmdeploy/operation/vision.h`, not part of this file) is modelled from the
specification.
-/

namespace MMDeployMask

/-- Element types of `mmdeploy::Tensor` that matter here (`DataType`). -/
inductive DataType where
  | kFLOAT
  | kINT8
  | kINT32
  | kINT64
deriving DecidableEq, Repr

/-- Shape/dtype metadata of a `Tensor`, the part the validator inspects. -/
structure TensorInfo where
  shape : List Nat
  dtype : DataType
deriving DecidableEq, Repr

/-- Error statuses used by the file: `eNotSupported` and `eFail`. -/
inductive Status where
  | eNotSupported
  | eFail
deriving DecidableEq, Repr

/-- A bounding box `[x0, y0, x1, y1]` in image coordinates (float fields). -/
structure BBox where
  x0 : ℚ
  y0 : ℚ
  x1 : ℚ
  y1 : ℚ
deriving DecidableEq, Repr

/-- One per-instance mask slice after `masks.Squeeze(0)` and `Slice(index)`:
`mask.shape(1)` is the height, `mask.shape(2)` the width, and `data r c`
the float value at row `r`, column `c`. -/
structure MaskSlice where
  h : Nat
  w : Nat
  data : Nat → Nat → ℚ

/-- A continuous-valued raster produced by the warp (`warped_mask`);
dimensions are the `height`/`width` ints passed to the warp. -/
structure Raster where
  height : ℤ
  width : ℤ
  data : Nat → Nat → ℚ

/-- An 8-bit grayscale raster (`cv::Mat` of `CV_8U` / `kINT8`). -/
structure ByteRaster where
  height : ℤ
  width : ℤ
  data : Nat → Nat → Nat

/-- One entry of `Detections` (`det` in the loop): its row index into the
mask / raw-det tensors, bbox already rescaled to original-image
coordinates, label, score, and the mask this pass fills in. -/
structure Detection where
  index : Nat
  label : ℤ
  score : ℚ
  bbox : BBox
  mask : Option ByteRaster

/-- `static_cast<int>` on a float value: truncation toward zero. -/
def ratTrunc (q : ℚ) : ℤ := if 0 ≤ q then ⌊q⌋ else ⌈q⌉

/-- `x0 = std::max(std::floor(bbox[0]) - 1, 0.f)`. -/
def clipX0 (b : BBox) : ℚ := max ((⌊b.x0⌋ : ℚ) - 1) 0

/-- `y0 = std::max(std::floor(bbox[1]) - 1, 0.f)`. -/
def clipY0 (b : BBox) : ℚ := max ((⌊b.y0⌋ : ℚ) - 1) 0

/-- `x1 = std::min(std::ceil(bbox[2]) + 1, (float)img_w)`. -/
def clipX1 (b : BBox) (img_w : ℤ) : ℚ := min ((⌈b.x1⌉ : ℚ) + 1) (img_w : ℚ)

/-- `y1 = std::min(std::ceil(bbox[3]) + 1, (float)img_h)`. -/
def clipY1 (b : BBox) (img_h : ℤ) : ℚ := min ((⌈b.y1⌉ : ℚ) + 1) (img_h : ℚ)

/-- `width = static_cast<int>(x1 - x0)`. -/
def cropWidth (b : BBox) (img_w : ℤ) : ℤ := ratTrunc (clipX1 b img_w - clipX0 b)

/-- `height = static_cast<int>(y1 - y0)`. -/
def cropHeight (b : BBox) (img_h : ℤ) : ℤ := ratTrunc (clipY1 b img_h - clipY0 b)

/-- The 2×3 affine matrix `{fx, 0, tx, 0, fy, ty}`. -/
structure Affine where
  fx : ℚ
  fy : ℚ
  tx : ℚ
  ty : ℚ
deriving DecidableEq, Repr

/-- The affine-coefficient computation of `ProcessMasks`: branch on
`is_rcnn_`; `x0 y0` are the clipped corner (`x0`, `y0` in the source),
`b` the rescaled bbox, `raw` the same detection's row of the pre-rescale
`cpu_dets` tensor (only read in the `else` branch). -/
def computeAffine (is_rcnn : Bool) (mask_height mask_width : Nat) (b raw : BBox)
    (x0 y0 : ℚ) : Affine :=
  if is_rcnn then
    let fx : ℚ := (mask_height : ℚ) / (b.x1 - b.x0)
    let fy : ℚ := (mask_width : ℚ) / (b.y1 - b.y0)
    { fx := fx, fy := fy,
      tx := (x0 + 1/2 - b.x0) * fx - 1/2,
      ty := (y0 + 1/2 - b.y0) * fy - 1/2 }
  else
    let fx : ℚ := (raw.x1 - raw.x0) / (b.x1 - b.x0)
    let fy : ℚ := (raw.y1 - raw.y0) / (b.y1 - b.y0)
    { fx := fx, fy := fy,
      tx := (x0 + 1/2 - b.x0) * fx - 1/2 + raw.x0,
      ty := (y0 + 1/2 - b.y0) * fy - 1/2 + raw.y0 }

/-- Sampling with a constant zero border: mask value at integer source
coordinates, zero outside the raster bounds. -/
def sampleZero (m : MaskSlice) (row col : ℤ) : ℚ :=
  if 0 ≤ row ∧ row < (m.h : ℤ) ∧ 0 ≤ col ∧ col < (m.w : ℤ) then
    m.data row.toNat col.toNat
  else 0

/-- Bilinear interpolation of the four nearest mask samples around a
continuous source coordinate (`sx`, `sy`) = (column, row). -/
def bilinearAt (m : MaskSlice) (sx sy : ℚ) : ℚ :=
  let cInt := ⌊sx⌋
  let rInt := ⌊sy⌋
  let dx := sx - (cInt : ℚ)
  let dy := sy - (rInt : ℚ)
  (1 - dy) * ((1 - dx) * sampleZero m rInt cInt + dx * sampleZero m rInt (cInt + 1)) +
    dy * ((1 - dx) * sampleZero m (rInt + 1) cInt + dx * sampleZero m (rInt + 1) (cInt + 1))

/-- Modelled from the spec: the `operation::WarpAffine` primitive invoked
as `warp_affine_.Apply(mask, warped_mask, affine_matrix, height, width)`
lives in `mmdeploy/operation/vision.h`, which is not part of this source
file.  Per §4.3 it is an inverse-mapping bilinear resample: output pixel
`(ox, oy)` maps through the affine matrix to source coordinates
`(fx*ox + tx, fy*oy + ty)` in the mask raster, bilinearly interpolated
with a constant zero border, producing a raster of exactly the requested
`height × width`. -/
def warpBilinear (m : MaskSlice) (a : Affine) (height width : ℤ) : Raster :=
  { height := height, width := width,
    data := fun oy ox => bilinearAt m (a.fx * ox + a.tx) (a.fy * oy + a.ty) }

/-- `warped_mat = warped_mat > mask_thr_binary_` (OpenCV comparison):
a same-size 8-bit raster, 255 where the value is strictly greater than
the threshold, 0 elsewhere. -/
def binarize (thr : ℚ) (r : Raster) : ByteRaster :=
  { height := r.height, width := r.width,
    data := fun i j => if thr < r.data i j then 255 else 0 }

/-- The warp primitive as seen by `ProcessMasks`: it may fail (its `Result`
is unwrapped with `OUTCOME_TRY`).  Arguments: mask slice, affine matrix,
requested height and width. -/
def WarpFn : Type := MaskSlice → Affine → ℤ → ℤ → Except Status Raster

/-- The warp that always succeeds with the spec-modelled bilinear resample. -/
def warpOk : WarpFn := fun m a height width => Except.ok (warpBilinear m a height width)

/-- The body of the `for (auto& det : result)` loop of `ProcessMasks` for
one detection, with the warp already known to succeed: slice the mask at
`det.index`, compute the clipped rectangle and the affine coefficients,
warp, binarize, and store the result in `det.mask`. -/
def processDetOk (is_rcnn : Bool) (mask_thr : ℚ) (img_w img_h : ℤ)
    (maskOf : Nat → MaskSlice) (rawOf : Nat → BBox) (det : Detection) : Detection :=
  let m := maskOf det.index
  let x0 := clipX0 det.bbox
  let y0 := clipY0 det.bbox
  let width := cropWidth det.bbox img_w
  let height := cropHeight det.bbox img_h
  let a := computeAffine is_rcnn m.h m.w det.bbox (rawOf det.index) x0 y0
  { det with mask := some (binarize mask_thr (warpBilinear m a height width)) }

/-- The `ProcessMasks` loop over `result`, faithful to its in-place
mutation semantics: each successfully processed detection is updated in
place; if the warp fails (`OUTCOME_TRY`), the loop returns early with the
error, the current and remaining detections left untouched.  The first
component is the state of `result` when `ProcessMasks` returns, the
second its returned `Result<void>` error, if any. -/
def processMasksLoop (is_rcnn : Bool) (mask_thr : ℚ) (warp : WarpFn) (img_w img_h : ℤ)
    (maskOf : Nat → MaskSlice) (rawOf : Nat → BBox) :
    List Detection → List Detection × Option Status
  | [] => ([], none)
  | det :: rest =>
    let m := maskOf det.index
    let x0 := clipX0 det.bbox
    let y0 := clipY0 det.bbox
    let width := cropWidth det.bbox img_w
    let height := cropHeight det.bbox img_h
    let a := computeAffine is_rcnn m.h m.w det.bbox (rawOf det.index) x0 y0
    match warp m a height width with
    | Except.error e => (det :: rest, some e)
    | Except.ok r =>
      let det2 := { det with mask := some (binarize mask_thr r) }
      let tail := processMasksLoop is_rcnn mask_thr warp img_w img_h maskOf rawOf rest
      (det2 :: tail.1, tail.2)

/-- The three shape/dtype checks at the top of `operator()`, in source
order: `dets` must be 3-D float, `labels` 2-D, `masks` 4-D float; the
first violation returns `Status(eNotSupported)`. -/
def validateTensors (dets labels masks : TensorInfo) : Except Status Unit :=
  if ¬(dets.shape.length = 3 ∧ dets.dtype = DataType.kFLOAT) then
    Except.error Status.eNotSupported
  else if labels.shape.length ≠ 2 then
    Except.error Status.eNotSupported
  else if ¬(masks.shape.length = 4 ∧ masks.dtype = DataType.kFLOAT) then
    Except.error Status.eNotSupported
  else
    Except.ok ()

/-- `ResizeInstanceMask::operator()`: validate the three tensors, then run
the per-detection mask pass over the detection list produced by the
external `DispatchGetBBoxes` (here an input, `detList`).  Faithful to the
source, the `Result<void>` returned by `ProcessMasks(result, ...)` is
DISCARDED — the statement's value is not checked — so the call returns
`to_value(result)` with whatever `result` holds, even when the loop
aborted early. -/
def resizeInstanceMaskCall (is_rcnn : Bool) (mask_thr : ℚ) (warp : WarpFn)
    (dets labels masks : TensorInfo) (detList : List Detection)
    (maskOf : Nat → MaskSlice) (rawOf : Nat → BBox) (img_w img_h : ℤ) :
    Except Status (List Detection) :=
  match validateTensors dets labels masks with
  | Except.error e => Except.error e
  | Except.ok _ =>
    Except.ok (processMasksLoop is_rcnn mask_thr warp img_w img_h maskOf rawOf detList).1

/-- The configuration value handed to the constructor: whether a
`"params"` object is present, and if so whether it contains the keys
`"mask_thr_binary"` (with its float value) and `"rcnn"`. -/
structure Config where
  hasParams : Bool
  paramsMaskThr : Option ℚ
  paramsHasRcnn : Bool
deriving DecidableEq, Repr

/-- `mask_thr_binary_` after the constructor: member-initialized to `0.5`,
overwritten by `cfg["params"].value("mask_thr_binary", mask_thr_binary_)`
when a `"params"` object exists. -/
def initMaskThr (cfg : Config) : ℚ :=
  if cfg.hasParams then cfg.paramsMaskThr.getD (1/2) else 1/2

/-- `is_rcnn_` after the constructor: member-initialized to `true`, but
reassigned to `cfg["params"].contains("rcnn")` — a key-presence test —
whenever a `"params"` object exists. -/
def initIsRcnn (cfg : Config) : Bool :=
  if cfg.hasParams then cfg.paramsHasRcnn else true

/-! ### Spec-side definitions (from the specification's words, §4.2, §8)
for comparison with the source-derived definitions above. -/

/-- Spec §4.2 Step 1: the clipped target rectangle
`(x0, y0, x1, y1) = (max(floor(x0)-1, 0), max(floor(y0)-1, 0),
min(ceil(x1)+1, img_w), min(ceil(y1)+1, img_h))`. -/
def specClipRect (b : BBox) (img_w img_h : ℤ) : ℚ × ℚ × ℚ × ℚ :=
  (max ((⌊b.x0⌋ : ℚ) - 1) 0, max ((⌊b.y0⌋ : ℚ) - 1) 0,
   min ((⌈b.x1⌉ : ℚ) + 1) (img_w : ℚ), min ((⌈b.y1⌉ : ℚ) + 1) (img_h : ℚ))

/-- Spec §4.2 Step 1: `width = round(x1' - x0')` as integer pixels. -/
def specWidth (b : BBox) (img_w img_h : ℤ) : ℤ :=
  round ((specClipRect b img_w img_h).2.2.1 - (specClipRect b img_w img_h).1)

/-- Spec §4.2 Step 1: `height = round(y1' - y0')` as integer pixels. -/
def specHeight (b : BBox) (img_w img_h : ℤ) : ℤ :=
  round ((specClipRect b img_w img_h).2.2.2 - (specClipRect b img_w img_h).2.1)

/-- Spec §4.2 Convention A ("rcnn" style): `fx = mask_h / (x1 - x0)`,
`fy = mask_w / (y1 - y0)`, `tx = (x0' + 0.5 - x0) * fx - 0.5`,
`ty = (y0' + 0.5 - y0) * fy - 0.5`. -/
def conventionA (mask_h mask_w : Nat) (b : BBox) (x0c y0c : ℚ) : Affine :=
  { fx := (mask_h : ℚ) / (b.x1 - b.x0),
    fy := (mask_w : ℚ) / (b.y1 - b.y0),
    tx := (x0c + 1/2 - b.x0) * ((mask_h : ℚ) / (b.x1 - b.x0)) - 1/2,
    ty := (y0c + 1/2 - b.y0) * ((mask_w : ℚ) / (b.y1 - b.y0)) - 1/2 }

/-- Spec §4.2 Convention B ("anchor-free" style):
`fx = (raw_x1 - raw_x0) / (x1 - x0)`, `fy = (raw_y1 - raw_y0) / (y1 - y0)`,
`tx = (x0' + 0.5 - x0) * fx - 0.5 + raw_x0`,
`ty = (y0' + 0.5 - y0) * fy - 0.5 + raw_y0`. -/
def conventionB (b raw : BBox) (x0c y0c : ℚ) : Affine :=
  { fx := (raw.x1 - raw.x0) / (b.x1 - b.x0),
    fy := (raw.y1 - raw.y0) / (b.y1 - b.y0),
    tx := (x0c + 1/2 - b.x0) * ((raw.x1 - raw.x0) / (b.x1 - b.x0)) - 1/2 + raw.x0,
    ty := (y0c + 1/2 - b.y0) * ((raw.y1 - raw.y0) / (b.y1 - b.y0)) - 1/2 + raw.y0 }

/-! ### Concrete sample inputs used to instantiate the theorems. -/

/-- A small all-ones 2×2 mask slice. -/
def demoSliceA : MaskSlice := ⟨2, 2, fun _ _ => 1⟩

/-- A 3×3 all-zero mask slice. -/
def demoSliceB : MaskSlice := ⟨3, 3, fun _ _ => 0⟩

/-- A degenerate 0×0 mask slice. -/
def demoSliceEmpty : MaskSlice := ⟨0, 0, fun _ _ => 0⟩

/-- A bbox well inside a 100×100 image. -/
def demoBox : BBox := ⟨10, 10, 50, 50⟩

/-- A detection with index 0. -/
def demoDet0 : Detection := ⟨0, 1, 9/10, demoBox, none⟩

/-- A detection with index 1. -/
def demoDet1 : Detection := ⟨1, 1, 8/10, demoBox, none⟩

/-- Mask accessor whose row 0 is `demoSliceA` and whose other rows are the
degenerate empty slice. -/
def demoMasks : Nat → MaskSlice := fun i => if i = 0 then demoSliceA else demoSliceEmpty

/-- Mask accessor agreeing with `demoMasks` at row 0 but not elsewhere. -/
def demoMasksAlt : Nat → MaskSlice := fun i => if i = 0 then demoSliceA else demoSliceB

/-- Raw-box accessor returning `demoBox` for every row. -/
def demoRaw : Nat → BBox := fun _ => demoBox

/-- A warp that fails (as the real device warp can) exactly on a mask
slice of height zero, and otherwise performs the bilinear resample. -/
def failWarp : WarpFn := fun m a height width =>
  if m.h = 0 then Except.error Status.eFail else warpOk m a height width

/-! ### Helper lemmas: the clipped corners are integer-valued, so the
source's `static_cast<int>` truncation and the spec's `round` coincide. -/

theorem ratTrunc_intCast (n : ℤ) : ratTrunc (n : ℚ) = n := by
  unfold ratTrunc
  split <;> simp

theorem clipX0_intCast (b : BBox) : clipX0 b = ((max (⌊b.x0⌋ - 1) 0 : ℤ) : ℚ) := by
  unfold clipX0
  push_cast
  rfl

theorem clipY0_intCast (b : BBox) : clipY0 b = ((max (⌊b.y0⌋ - 1) 0 : ℤ) : ℚ) := by
  unfold clipY0
  push_cast
  rfl

theorem clipX1_intCast (b : BBox) (img_w : ℤ) :
    clipX1 b img_w = ((min (⌈b.x1⌉ + 1) img_w : ℤ) : ℚ) := by
  unfold clipX1
  push_cast
  rfl

theorem clipY1_intCast (b : BBox) (img_h : ℤ) :
    clipY1 b img_h = ((min (⌈b.y1⌉ + 1) img_h : ℤ) : ℚ) := by
  unfold clipY1
  push_cast
  rfl

theorem cropWidth_int (b : BBox) (img_w : ℤ) :
    cropWidth b img_w = min (⌈b.x1⌉ + 1) img_w - max (⌊b.x0⌋ - 1) 0 := by
  unfold cropWidth
  rw [clipX1_intCast, clipX0_intCast, ← Int.cast_sub, ratTrunc_intCast]

theorem cropHeight_int (b : BBox) (img_h : ℤ) :
    cropHeight b img_h = min (⌈b.y1⌉ + 1) img_h - max (⌊b.y0⌋ - 1) 0 := by
  unfold cropHeight
  rw [clipY1_intCast, clipY0_intCast, ← Int.cast_sub, ratTrunc_intCast]

theorem specWidth_int (b : BBox) (img_w img_h : ℤ) :
    specWidth b img_w img_h = min (⌈b.x1⌉ + 1) img_w - max (⌊b.x0⌋ - 1) 0 := by
  show round (clipX1 b img_w - clipX0 b) = _
  rw [clipX1_intCast, clipX0_intCast, ← Int.cast_sub, round_intCast]

theorem specHeight_int (b : BBox) (img_w img_h : ℤ) :
    specHeight b img_w img_h = min (⌈b.y1⌉ + 1) img_h - max (⌊b.y0⌋ - 1) 0 := by
  show round (clipY1 b img_h - clipY0 b) = _
  rw [clipY1_intCast, clipY0_intCast, ← Int.cast_sub, round_intCast]

theorem cropWidth_eq_specWidth (b : BBox) (img_w img_h : ℤ) :
    cropWidth b img_w = specWidth b img_w img_h := by
  rw [cropWidth_int, specWidth_int]

theorem cropHeight_eq_specHeight (b : BBox) (img_w img_h : ℤ) :
    cropHeight b img_h = specHeight b img_w img_h := by
  rw [cropHeight_int, specHeight_int]

/-- The mask written into a detection by the per-detection pass. -/
theorem processDetOk_mask (is_rcnn : Bool) (mask_thr : ℚ) (img_w img_h : ℤ)
    (maskOf : Nat → MaskSlice) (rawOf : Nat → BBox) (det : Detection) :
    (processDetOk is_rcnn mask_thr img_w img_h maskOf rawOf det).mask
      = some (binarize mask_thr
          (warpBilinear (maskOf det.index)
            (computeAffine is_rcnn (maskOf det.index).h (maskOf det.index).w det.bbox
              (rawOf det.index) (clipX0 det.bbox) (clipY0 det.bbox))
            (cropHeight det.bbox img_h) (cropWidth det.bbox img_w))) := rfl

/-! ### Claim theorems -/

/-- C1: for every detection processed, the emitted mask's width and height
equal those of the clipped target rectangle of §4.2 Step 1 — `x0' =
max(floor(x0)-1, 0)`, `y0' = max(floor(y0)-1, 0)`, `x1' = min(ceil(x1)+1,
img_w)`, `y1' = min(ceil(y1)+1, img_h)`, `width = round(x1'-x0')`,
`height = round(y1'-y0')`; in particular `bbox=[10,10,50,50]` with
`img_w=img_h=100` yields the rectangle `(9, 9, 51, 51)` and
`width = height = 42`. -/
theorem C1_mask_dims_match_clip_rect :
    (∀ (is_rcnn : Bool) (mask_thr : ℚ) (img_w img_h : ℤ) (maskOf : Nat → MaskSlice)
        (rawOf : Nat → BBox) (det : Detection),
        ((processDetOk is_rcnn mask_thr img_w img_h maskOf rawOf det).mask.map ByteRaster.width)
            = some (specWidth det.bbox img_w img_h)
          ∧ ((processDetOk is_rcnn mask_thr img_w img_h maskOf rawOf det).mask.map
              ByteRaster.height) = some (specHeight det.bbox img_w img_h))
      ∧ specClipRect ⟨10, 10, 50, 50⟩ 100 100 = (9, 9, 51, 51)
      ∧ specWidth ⟨10, 10, 50, 50⟩ 100 100 = 42
      ∧ specHeight ⟨10, 10, 50, 50⟩ 100 100 = 42
      ∧ cropWidth ⟨10, 10, 50, 50⟩ 100 = 42
      ∧ cropHeight ⟨10, 10, 50, 50⟩ 100 = 42 := by
  refine ⟨fun is_rcnn mask_thr img_w img_h maskOf rawOf det => ⟨?_, ?_⟩, ?_, ?_, ?_, ?_, ?_⟩
  · exact congrArg some (cropWidth_eq_specWidth det.bbox img_w img_h)
  · exact congrArg some (cropHeight_eq_specHeight det.bbox img_w img_h)
  · norm_num [specClipRect]
  · rw [specWidth_int]
    norm_num
  · rw [specHeight_int]
    norm_num
  · rw [cropWidth_int]
    norm_num
  · rw [cropHeight_int]
    norm_num

/-- C2: for every detection, the affine coefficients follow the
convention-selected formula: under Convention A (`is_rcnn_`),
`fx = mask_h/(x1-x0)`, `fy = mask_w/(y1-y0)`, `tx = (x0'+0.5-x0)*fx-0.5`,
`ty = (y0'+0.5-y0)*fy-0.5`; under Convention B, `fx = (raw_x1-raw_x0)/(x1-x0)`,
`fy = (raw_y1-raw_y0)/(y1-y0)`, `tx = (x0'+0.5-x0)*fx-0.5+raw_x0`,
`ty = (y0'+0.5-y0)*fy-0.5+raw_y0`, the raw box being that detection's row
of the pre-rescale detection tensor. -/
theorem C2_affine_convention_formulas :
    ∀ (mask_h mask_w : Nat) (b raw : BBox),
      computeAffine true mask_h mask_w b raw (clipX0 b) (clipY0 b)
          = conventionA mask_h mask_w b (clipX0 b) (clipY0 b)
        ∧ computeAffine false mask_h mask_w b raw (clipX0 b) (clipY0 b)
          = conventionB b raw (clipX0 b) (clipY0 b) := by
  intro mask_h mask_w b raw
  exact ⟨rfl, rfl⟩

/-- C3: if the detection tensor is not 3-D float, or the label tensor is
not 2-D, or the mask tensor is not 4-D float, the call returns an
`eNotSupported` error carrying no detection list (so no per-detection
processing result is visible); when all three checks pass, validation
returns no error. -/
theorem C3_validation_gate :
    ∀ (is_rcnn : Bool) (mask_thr : ℚ) (warp : WarpFn) (dets labels masks : TensorInfo)
      (detList : List Detection) (maskOf : Nat → MaskSlice) (rawOf : Nat → BBox)
      (img_w img_h : ℤ),
      (¬(dets.shape.length = 3 ∧ dets.dtype = DataType.kFLOAT ∧ labels.shape.length = 2
            ∧ masks.shape.length = 4 ∧ masks.dtype = DataType.kFLOAT) →
          resizeInstanceMaskCall is_rcnn mask_thr warp dets labels masks detList maskOf rawOf
              img_w img_h = Except.error Status.eNotSupported)
        ∧ ((dets.shape.length = 3 ∧ dets.dtype = DataType.kFLOAT ∧ labels.shape.length = 2
            ∧ masks.shape.length = 4 ∧ masks.dtype = DataType.kFLOAT) →
          validateTensors dets labels masks = Except.ok ()) := by
  intro is_rcnn mask_thr warp dets labels masks detList maskOf rawOf img_w img_h
  unfold resizeInstanceMaskCall validateTensors
  constructor
  · intro h
    split_ifs with h1 h2 h3 <;> first | rfl | (exact absurd ⟨h1.1, h1.2, not_ne_iff.mp h2, h3.1, h3.2⟩ h)
  · intro h
    split_ifs with h1 h2 h3 <;> first | rfl | tauto

/-- Witness for C3: a 2-D `dets` tensor makes the whole call return
`eNotSupported`, and a well-shaped triple passes validation. -/
theorem C3_validation_gate_witness :
    resizeInstanceMaskCall true (1/2) warpOk ⟨[1, 5], DataType.kFLOAT⟩
        ⟨[1, 5], DataType.kINT64⟩ ⟨[1, 5, 28, 28], DataType.kFLOAT⟩ [] demoMasks demoRaw
        100 100 = Except.error Status.eNotSupported
      ∧ validateTensors ⟨[1, 5, 5], DataType.kFLOAT⟩ ⟨[1, 5], DataType.kINT64⟩
        ⟨[1, 5, 28, 28], DataType.kFLOAT⟩ = Except.ok () :=
  ⟨(C3_validation_gate true (1/2) warpOk ⟨[1, 5], DataType.kFLOAT⟩ ⟨[1, 5], DataType.kINT64⟩
      ⟨[1, 5, 28, 28], DataType.kFLOAT⟩ [] demoMasks demoRaw 100 100).1 (by decide),
   (C3_validation_gate true (1/2) warpOk ⟨[1, 5, 5], DataType.kFLOAT⟩
      ⟨[1, 5], DataType.kINT64⟩ ⟨[1, 5, 28, 28], DataType.kFLOAT⟩ [] demoMasks demoRaw
      100 100).2 (by decide)⟩

/-- C6: the binarizer keeps the raster's dimensions and marks a pixel
foreground (255, a nonzero byte) exactly when its resampled value is
strictly greater than the threshold; a pixel equal to the threshold is
background (0). -/
theorem C6_binarize_strict_threshold :
    ∀ (thr : ℚ) (r : Raster),
      (binarize thr r).height = r.height ∧ (binarize thr r).width = r.width
        ∧ (∀ i j, (binarize thr r).data i j ≠ 0 ↔ thr < r.data i j)
        ∧ (∀ i j, r.data i j = thr → (binarize thr r).data i j = 0) := by
  intro thr r
  refine ⟨rfl, rfl, fun i j => ?_, fun i j h => ?_⟩
  · by_cases h : thr < r.data i j <;> simp [binarize, h]
  · simp [binarize, h]

/-- Witness for C6: a pixel whose value equals the threshold binarizes
to background. -/
theorem C6_binarize_strict_threshold_witness :
    (binarize (1/2) { height := 1, width := 1, data := fun _ _ => 1/2 }).data 0 0 = 0 :=
  (C6_binarize_strict_threshold (1/2)
    { height := 1, width := 1, data := fun _ _ => 1/2 }).2.2.2 0 0 rfl

/-- C10: the validator never reads the label tensor's dtype — validation
is invariant under changing it, and any 2-D label tensor passes that check
regardless of dtype — while `dets` and `masks` of correct rank but
non-float dtype are rejected. -/
theorem C10_labels_dtype_ignored :
    (∀ (dets masks labels1 labels2 : TensorInfo), labels1.shape = labels2.shape →
        validateTensors dets labels1 masks = validateTensors dets labels2 masks)
      ∧ (∀ (sh : List Nat) (dt : DataType) (dets masks : TensorInfo),
          dets.shape.length = 3 → dets.dtype = DataType.kFLOAT → masks.shape.length = 4 →
            masks.dtype = DataType.kFLOAT → sh.length = 2 →
            validateTensors dets ⟨sh, dt⟩ masks = Except.ok ())
      ∧ validateTensors ⟨[1, 5, 6], DataType.kINT32⟩ ⟨[1, 5], DataType.kINT32⟩
          ⟨[1, 5, 2, 2], DataType.kFLOAT⟩ = Except.error Status.eNotSupported
      ∧ validateTensors ⟨[1, 5, 6], DataType.kFLOAT⟩ ⟨[1, 5], DataType.kINT32⟩
          ⟨[1, 5, 2, 2], DataType.kINT32⟩ = Except.error Status.eNotSupported := by
  refine ⟨fun dets masks l1 l2 h => ?_, fun sh dt dets masks h3 hf h4 hmf h2 => ?_, ?_, ?_⟩
  · unfold validateTensors
    rw [h]
  · simp [validateTensors, h3, hf, h4, hmf, h2]
  · rfl
  · rfl

/-- Witness for C10: an `kINT8` 2-D label tensor passes validation
alongside well-formed `dets` and `masks`. -/
theorem C10_labels_dtype_ignored_witness :
    validateTensors ⟨[1, 5, 6], DataType.kFLOAT⟩ ⟨[2, 7], DataType.kINT8⟩
        ⟨[1, 5, 2, 2], DataType.kFLOAT⟩ = Except.ok () :=
  C10_labels_dtype_ignored.2.1 [2, 7] DataType.kINT8 ⟨[1, 5, 6], DataType.kFLOAT⟩
    ⟨[1, 5, 2, 2], DataType.kFLOAT⟩ rfl rfl rfl rfl rfl

/-- C4 (against the claim): `operator()` discards the `Result<void>` of
`ProcessMasks`, so when the warp fails on the second of two detections the
call still returns success, with the first detection's mask populated and
the second's empty — a partial result — while the loop itself did abort
with `eFail`. -/
theorem C4_partial_result_bug :
    (resizeInstanceMaskCall true (1/2) failWarp ⟨[1, 2, 5], DataType.kFLOAT⟩
        ⟨[1, 2], DataType.kINT64⟩ ⟨[1, 2, 28, 28], DataType.kFLOAT⟩ [demoDet0, demoDet1]
        demoMasks demoRaw 100 100).map (List.map fun d => d.mask.isSome)
      = Except.ok [true, false]
    ∧ (processMasksLoop true (1/2) failWarp 100 100 demoMasks demoRaw
        [demoDet0, demoDet1]).2 = some Status.eFail := by
  exact ⟨rfl, rfl⟩

/-- Counterexample for C7: with the raw box equal to the rescaled box
`[10,10,50,50]` and mask dimensions 40×40 — so that `mask_h = x1-x0` and
`mask_w = y1-y0` both hold — Convention A and Convention B still disagree
(their `tx` differ by `raw_x0 = 10`), refuting the claimed "exactly when". -/
theorem C7_counterexample_tx_mismatch :
    ((40 : ℚ) = demoBox.x1 - demoBox.x0) ∧ ((40 : ℚ) = demoBox.y1 - demoBox.y0)
      ∧ computeAffine true 40 40 demoBox demoBox (clipX0 demoBox) (clipY0 demoBox)
        ≠ computeAffine false 40 40 demoBox demoBox (clipX0 demoBox) (clipY0 demoBox) := by
  refine ⟨by norm_num [demoBox], by norm_num [demoBox], fun h => ?_⟩
  have htx := congrArg Affine.tx h
  norm_num [computeAffine, demoBox, clipX0, clipY0] at htx

/-- C7 (amended): when the raw pre-rescale box equals the rescaled box
(and the box is nondegenerate), Convention B yields `fx = fy = 1`; the
full coefficient tuples of Convention A and Convention B agree exactly
when additionally `mask_h = x1-x0`, `mask_w = y1-y0` AND `x0 = 0`,
`y0 = 0` — matching scale alone leaves the translations offset by the raw
box origin. -/
theorem C7_convention_agreement :
    ∀ (mask_h mask_w : Nat) (b : BBox), b.x0 < b.x1 → b.y0 < b.y1 →
      ((computeAffine false mask_h mask_w b b (clipX0 b) (clipY0 b)).fx = 1
        ∧ (computeAffine false mask_h mask_w b b (clipX0 b) (clipY0 b)).fy = 1)
      ∧ (computeAffine true mask_h mask_w b b (clipX0 b) (clipY0 b)
            = computeAffine false mask_h mask_w b b (clipX0 b) (clipY0 b)
          ↔ ((mask_h : ℚ) = b.x1 - b.x0 ∧ (mask_w : ℚ) = b.y1 - b.y0
              ∧ b.x0 = 0 ∧ b.y0 = 0)) := by
  intro mask_h mask_w b hx hy
  have hdx : b.x1 - b.x0 ≠ 0 := sub_ne_zero.mpr (ne_of_gt hx)
  have hdy : b.y1 - b.y0 ≠ 0 := sub_ne_zero.mpr (ne_of_gt hy)
  have hB : computeAffine false mask_h mask_w b b (clipX0 b) (clipY0 b)
      = { fx := 1, fy := 1, tx := clipX0 b, ty := clipY0 b } := by
    show Affine.mk ((b.x1 - b.x0) / (b.x1 - b.x0)) ((b.y1 - b.y0) / (b.y1 - b.y0))
        ((clipX0 b + 1/2 - b.x0) * ((b.x1 - b.x0) / (b.x1 - b.x0)) - 1/2 + b.x0)
        ((clipY0 b + 1/2 - b.y0) * ((b.y1 - b.y0) / (b.y1 - b.y0)) - 1/2 + b.y0) = _
    rw [div_self hdx, div_self hdy]
    simp only [Affine.mk.injEq]
    exact ⟨trivial, trivial, by ring, by ring⟩
  constructor
  · rw [hB]
    exact ⟨rfl, rfl⟩
  · rw [hB]
    have hA : computeAffine true mask_h mask_w b b (clipX0 b) (clipY0 b)
        = Affine.mk ((mask_h : ℚ) / (b.x1 - b.x0)) ((mask_w : ℚ) / (b.y1 - b.y0))
            ((clipX0 b + 1/2 - b.x0) * ((mask_h : ℚ) / (b.x1 - b.x0)) - 1/2)
            ((clipY0 b + 1/2 - b.y0) * ((mask_w : ℚ) / (b.y1 - b.y0)) - 1/2) := rfl
    rw [hA, Affine.mk.injEq]
    constructor
    · rintro ⟨h1, h2, h3, h4⟩
      have hmh : (mask_h : ℚ) = b.x1 - b.x0 := by
        have := (div_eq_iff hdx).mp h1
        linarith
      have hmw : (mask_w : ℚ) = b.y1 - b.y0 := by
        have := (div_eq_iff hdy).mp h2
        linarith
      rw [hmh, div_self hdx] at h3
      rw [hmw, div_self hdy] at h4
      exact ⟨hmh, hmw, by linarith, by linarith⟩
    · rintro ⟨h1, h2, h3, h4⟩
      rw [h1, h2, div_self hdx, div_self hdy, h3, h4]
      refine ⟨rfl, rfl, by ring, by ring⟩

/-- Witness for C7: box `[0,0,4,4]` with 4×4 mask dimensions satisfies the
hypotheses, and there the full agreement conditions hold. -/
theorem C7_convention_agreement_witness :
    ((computeAffine false 4 4 ⟨0, 0, 4, 4⟩ ⟨0, 0, 4, 4⟩ (clipX0 ⟨0, 0, 4, 4⟩)
          (clipY0 ⟨0, 0, 4, 4⟩)).fx = 1
      ∧ (computeAffine false 4 4 ⟨0, 0, 4, 4⟩ ⟨0, 0, 4, 4⟩ (clipX0 ⟨0, 0, 4, 4⟩)
          (clipY0 ⟨0, 0, 4, 4⟩)).fy = 1)
    ∧ (computeAffine true 4 4 ⟨0, 0, 4, 4⟩ ⟨0, 0, 4, 4⟩ (clipX0 ⟨0, 0, 4, 4⟩)
          (clipY0 ⟨0, 0, 4, 4⟩)
        = computeAffine false 4 4 ⟨0, 0, 4, 4⟩ ⟨0, 0, 4, 4⟩ (clipX0 ⟨0, 0, 4, 4⟩)
          (clipY0 ⟨0, 0, 4, 4⟩)
      ↔ ((4 : ℚ) = (4 : ℚ) - 0 ∧ (4 : ℚ) = (4 : ℚ) - 0 ∧ (0 : ℚ) = 0 ∧ (0 : ℚ) = 0)) :=
  C7_convention_agreement 4 4 ⟨0, 0, 4, 4⟩ (by norm_num) (by norm_num)

/-- Counterexample for C8: a config whose `params` object exists but
carries no `rcnn` key — so `is_rcnn` is not specified — yields
`is_rcnn_ = false`, not the claimed default `true`. -/
theorem C8_counterexample_params_without_rcnn :
    initIsRcnn { hasParams := true, paramsMaskThr := some (3/10), paramsHasRcnn := false }
      = false := rfl

/-- C8 (amended): `mask_thr_binary_` defaults to 0.5; the convention
selector is set by key presence, not by reading a boolean: with no
`params` object `is_rcnn_` keeps its member default `true`, and with a
`params` object it is `true` iff that object contains the key `rcnn`;
Convention A's formulas are used exactly when `is_rcnn_` is `true`. -/
theorem C8_config_semantics :
    ∀ cfg : Config,
      (cfg.hasParams = false → initIsRcnn cfg = true ∧ initMaskThr cfg = 1/2)
      ∧ (cfg.hasParams = true → initIsRcnn cfg = cfg.paramsHasRcnn)
      ∧ (cfg.paramsMaskThr = none → initMaskThr cfg = 1/2)
      ∧ (∀ (mask_h mask_w : Nat) (b raw : BBox) (x0c y0c : ℚ),
          computeAffine (initIsRcnn cfg) mask_h mask_w b raw x0c y0c
            = if initIsRcnn cfg then conventionA mask_h mask_w b x0c y0c
              else conventionB b raw x0c y0c) := by
  intro cfg
  refine ⟨fun h => ?_, fun h => ?_, fun h => ?_, fun mask_h mask_w b raw x0c y0c => ?_⟩
  · rw [initIsRcnn, initMaskThr, h]
    exact ⟨rfl, rfl⟩
  · rw [initIsRcnn, h]
    rfl
  · cases hp : cfg.hasParams <;> simp [initMaskThr, hp, h]
  · cases hr : initIsRcnn cfg <;> simp only [if_true, if_false, Bool.false_eq_true,
      ite_false, ite_true] <;> exact rfl

/-- Witness for C8: the empty configuration keeps the defaults
`is_rcnn_ = true` and `mask_thr_binary_ = 0.5`. -/
theorem C8_config_semantics_witness :
    initIsRcnn { hasParams := false, paramsMaskThr := none, paramsHasRcnn := false } = true
      ∧ initMaskThr { hasParams := false, paramsMaskThr := none, paramsHasRcnn := false }
        = 1/2 :=
  (C8_config_semantics (Config.mk false none false)).1 rfl

/-- The successful-warp loop is a pure map of the per-detection function. -/
theorem processMasksLoop_warpOk (is_rcnn : Bool) (mask_thr : ℚ) (img_w img_h : ℤ)
    (maskOf : Nat → MaskSlice) (rawOf : Nat → BBox) (l : List Detection) :
    processMasksLoop is_rcnn mask_thr warpOk img_w img_h maskOf rawOf l
      = (l.map (processDetOk is_rcnn mask_thr img_w img_h maskOf rawOf), none) := by
  induction l with
  | nil => rfl
  | cons det rest ih => simp [processMasksLoop, processDetOk, warpOk, ih]

/-- C9: per-detection processing is noninterfering — two runs whose inputs
agree on detection `k`'s record, its mask slice, and its raw box (but may
differ arbitrarily elsewhere, e.g. on other detections' slices or boxes)
emit the same mask for detection `k`. -/
theorem C9_noninterference :
    ∀ (is_rcnn : Bool) (mask_thr : ℚ) (img_w img_h : ℤ)
      (maskOf1 maskOf2 : Nat → MaskSlice) (rawOf1 rawOf2 : Nat → BBox)
      (l1 l2 : List Detection) (k : Nat) (d1 d2 : Detection),
      l1.get? k = some d1 → l2.get? k = some d2 →
      d1.index = d2.index → d1.bbox = d2.bbox →
      maskOf1 d1.index = maskOf2 d2.index → rawOf1 d1.index = rawOf2 d2.index →
      ((processMasksLoop is_rcnn mask_thr warpOk img_w img_h maskOf1 rawOf1 l1).1.get? k).map
          Detection.mask
        = ((processMasksLoop is_rcnn mask_thr warpOk img_w img_h maskOf2
            rawOf2 l2).1.get? k).map Detection.mask := by
  intro is_rcnn mask_thr img_w img_h maskOf1 maskOf2 rawOf1 rawOf2 l1 l2 k d1 d2 h1 h2 hidx
    hbb hm hr
  rw [processMasksLoop_warpOk, processMasksLoop_warpOk]
  rw [List.get?_map, List.get?_map, h1, h2]
  show some (processDetOk is_rcnn mask_thr img_w img_h maskOf1 rawOf1 d1).mask
    = some (processDetOk is_rcnn mask_thr img_w img_h maskOf2 rawOf2 d2).mask
  rw [processDetOk_mask, processDetOk_mask, hm, hr, hbb]

/-- Witness for C9: two runs differing only in detection 1's mask slice
emit the same mask for detection 0. -/
theorem C9_noninterference_witness :
    ((processMasksLoop true (1/2) warpOk 100 100 demoMasks demoRaw
        [demoDet0, demoDet1]).1.get? 0).map Detection.mask
      = ((processMasksLoop true (1/2) warpOk 100 100 demoMasksAlt demoRaw
        [demoDet0, demoDet1]).1.get? 0).map Detection.mask :=
  C9_noninterference true (1/2) 100 100 demoMasks demoMasksAlt demoRaw demoRaw
    [demoDet0, demoDet1] [demoDet0, demoDet1] 0 demoDet0 demoDet0 rfl rfl rfl rfl rfl rfl

end MMDeployMask
